import Mathlib

/-! The tunnel protocol of `ntunnel_mysql.go`.

A shallow embedding of the binary encoder and of the query framing of
`ntunnel_mysql.go`, with the properties of the protocol proved about it.

Conventions of the embedding
* a byte is a `Fin 256`; a Go `[]byte`, and a Go `string` that is only ever
  copied into the output, is a `List Byte`;
* a Go `string` that the program inspects rune by rune (a statement, a type
  name) is a Lean `String`;
* `uint32` values are natural numbers, a conversion to `uint32` is `% 2^32`;
* `bytes.Buffer` is the list of the bytes written so far, `Write` appends;
* the database driver is a record of functions over an abstract state.
-/

namespace NTunnel

/-! ## Bytes and slices -/

/-- One octet. -/
abbrev Byte := Fin 256

/-- Go conversion `byte(x)` of an unsigned integer: the low eight bits. -/
def byte (n : Nat) : Byte := ⟨n % 256, Nat.mod_lt n (by decide)⟩

/-- Go conversion `uint32(x)` of a signed integer: the low 32 bits. -/
def uint32 (i : Int) : Nat := (i % 4294967296).toNat

/-- Go `make([]byte, n)`: `n` zero bytes. -/
def make (n : Nat) : List Byte := List.replicate n 0

/-- Go builtin `copy(dst, src)`: the first `min (len dst) (len src)` elements of
`dst` are overwritten with those of `src`; the value is the new `dst`. -/
def copy (dst src : List Byte) : List Byte :=
  src.take dst.length ++ dst.drop src.length

/-- `binary.BigEndian.PutUint32(b, v)` for a `uint32` value `v`. -/
def PutUint32 (b : List Byte) (v : Nat) : List Byte :=
  (((b.set 0 (byte (v >>> 24))).set 1 (byte (v >>> 16))).set 2 (byte (v >>> 8))).set 3 (byte v)

/-- `binary.BigEndian.PutUint16(b, v)` for a `uint16` value `v`. -/
def PutUint16 (b : List Byte) (v : Nat) : List Byte :=
  (b.set 0 (byte (v >>> 8))).set 1 (byte v)

/-! ## Primitive encoder -/

/-- `GetLongBinary`: a `uint32` as four bytes, big-endian. -/
def GetLongBinary (num : Nat) : List Byte :=
  let buf := make 4
  PutUint32 buf num

/-- `GetShortBinary`: a `uint16` as two bytes, big-endian. -/
def GetShortBinary (num : Nat) : List Byte :=
  let buf := make 2
  PutUint16 buf num

/-- `GetDummy`: `count` null bytes. -/
def GetDummy (count : Nat) : List Byte := make count

/-- `GetBlock`: the value with its length prefix.  `val` is the byte content of
the Go string; `result[1:]`, `result[1:5]` and `result[5:]` are the slices the
source writes through. -/
def GetBlock (val : List Byte) : List Byte :=
  let data := val
  let length := data.length
  if length < 254 then
    let result := make (1 + length)
    let result := result.set 0 (byte length)
    result.take 1 ++ copy (result.drop 1) data
  else
    let result := make (5 + length)
    let result := result.set 0 0xFE
    let result := result.take 1 ++ PutUint32 ((result.drop 1).take 4) (length % 4294967296)
      ++ result.drop 5
    result.take 5 ++ copy (result.drop 5) data

/-! ## Frame builder: headers -/

/-- `EchoHeader`: the response header. -/
def EchoHeader (errno : Nat) : List Byte :=
  let buf : List Byte := []
  let buf := buf ++ GetLongBinary 1111
  let buf := buf ++ GetShortBinary 202
  let buf := buf ++ GetLongBinary errno
  let buf := buf ++ GetDummy 6
  buf

/-- `EchoResultSetHeader`: the header of one statement's result. -/
def EchoResultSetHeader (errno affectedRows insertID numFields numRows : Nat) : List Byte :=
  let buf : List Byte := []
  let buf := buf ++ GetLongBinary errno
  let buf := buf ++ GetLongBinary affectedRows
  let buf := buf ++ GetLongBinary insertID
  let buf := buf ++ GetLongBinary numFields
  let buf := buf ++ GetLongBinary numRows
  let buf := buf ++ GetDummy 12
  buf

/-- `createErrorResponse`: a header with the error code, then the message. -/
def createErrorResponse (errno : Nat) (message : List Byte) : List Byte :=
  let buf : List Byte := []
  let buf := buf ++ EchoHeader errno
  let buf := buf ++ GetBlock message
  buf

/-! ## Strings -/

/-- The bytes of a text of ASCII characters. -/
def ascii (s : String) : List Byte := s.toList.map (fun c => byte c.toNat)

/-- Whether `sub` occurs in `s` as a contiguous run. -/
def containsChars (s sub : List Char) : Bool :=
  match s with
  | [] => sub.isEmpty
  | c :: cs => sub.isPrefixOf (c :: cs) || containsChars cs sub

/-- `strings.Contains`. -/
def Contains (s substr : String) : Bool := containsChars s.toList substr.toList

/-- `strings.HasPrefix`. -/
def HasPrefix (s pre : String) : Bool := pre.toList.isPrefixOf s.toList

/-- `unicode.ToUpper` on the runes whose upper case is an ASCII character: the
letters `a` to `z`, U+017F (long s, upper case `S`) and U+0131 (dotless i, upper
case `I`).  Every other rune is kept as it is: its upper case is not an ASCII
character, and the program only compares upper-cased text with ASCII words. -/
def toUpperRune (c : Char) : Char :=
  if 97 ≤ c.toNat ∧ c.toNat ≤ 122 then Char.ofNat (c.toNat - 32)
  else if c.toNat = 0x17F then 'S'
  else if c.toNat = 0x131 then 'I'
  else c

/-- `strings.ToUpper`. -/
def ToUpper (s : String) : String := String.mk (s.toList.map toUpperRune)

/-- `unicode.IsSpace`: the white space characters of Unicode. -/
def isSpace (c : Char) : Bool :=
  let n := c.toNat
  n == 0x09 || n == 0x0A || n == 0x0B || n == 0x0C || n == 0x0D || n == 0x20 ||
  n == 0x85 || n == 0xA0 || n == 0x1680 || (0x2000 ≤ n && n ≤ 0x200A) ||
  n == 0x2028 || n == 0x2029 || n == 0x202F || n == 0x205F || n == 0x3000

/-- `strings.TrimSpace`: the text without its leading and trailing white space. -/
def TrimSpace (s : String) : String :=
  String.mk ((s.toList.dropWhile isSpace).reverse.dropWhile isSpace).reverse

/-- `fmt.Sprintf("%d", n)` for an unsigned integer, as bytes. -/
def formatUint (n : Nat) : List Byte := ascii (Nat.repr n)

/-- `strconv.FormatInt(v, 10)`, as bytes. -/
def FormatInt (v : Int) : List Byte :=
  match v with
  | Int.ofNat m => ascii (Nat.repr m)
  | Int.negSucc m => ascii "-" ++ ascii (Nat.repr (m + 1))

/-! ## Type mapper -/

/-- `MySQLFieldType`: the type codes of the protocol. -/
abbrev MySQLFieldType := Nat

def MYSQL_TYPE_DECIMAL : MySQLFieldType := 0
def MYSQL_TYPE_TINY : MySQLFieldType := 1
def MYSQL_TYPE_SHORT : MySQLFieldType := 2
def MYSQL_TYPE_LONG : MySQLFieldType := 3
def MYSQL_TYPE_FLOAT : MySQLFieldType := 4
def MYSQL_TYPE_DOUBLE : MySQLFieldType := 5
def MYSQL_TYPE_NULL : MySQLFieldType := 6
def MYSQL_TYPE_TIMESTAMP : MySQLFieldType := 7
def MYSQL_TYPE_LONGLONG : MySQLFieldType := 8
def MYSQL_TYPE_INT24 : MySQLFieldType := 9
def MYSQL_TYPE_DATE : MySQLFieldType := 10
def MYSQL_TYPE_TIME : MySQLFieldType := 11
def MYSQL_TYPE_DATETIME : MySQLFieldType := 12
def MYSQL_TYPE_YEAR : MySQLFieldType := 13
def MYSQL_TYPE_NEWDATE : MySQLFieldType := 14
def MYSQL_TYPE_VARCHAR : MySQLFieldType := 15
def MYSQL_TYPE_BIT : MySQLFieldType := 16
def MYSQL_TYPE_JSON : MySQLFieldType := 245
def MYSQL_TYPE_NEWDECIMAL : MySQLFieldType := 246
def MYSQL_TYPE_ENUM : MySQLFieldType := 247
def MYSQL_TYPE_SET : MySQLFieldType := 248
def MYSQL_TYPE_TINY_BLOB : MySQLFieldType := 249
def MYSQL_TYPE_MEDIUM_BLOB : MySQLFieldType := 250
def MYSQL_TYPE_LONG_BLOB : MySQLFieldType := 251
def MYSQL_TYPE_BLOB : MySQLFieldType := 252
def MYSQL_TYPE_VAR_STRING : MySQLFieldType := 253
def MYSQL_TYPE_STRING : MySQLFieldType := 254
def MYSQL_TYPE_GEOMETRY : MySQLFieldType := 255

/-- `GetMySQLTypeFromName`: the type code of a database type name; the cases of
the `switch` are tried from top to bottom. -/
def GetMySQLTypeFromName (typeName : String) : MySQLFieldType :=
  if Contains typeName "TINYINT" then MYSQL_TYPE_TINY
  else if Contains typeName "SMALLINT" then MYSQL_TYPE_SHORT
  else if Contains typeName "MEDIUMINT" then MYSQL_TYPE_INT24
  else if Contains typeName "BIGINT" then MYSQL_TYPE_LONGLONG
  else if Contains typeName "INT" then MYSQL_TYPE_LONG
  else if Contains typeName "FLOAT" then MYSQL_TYPE_FLOAT
  else if Contains typeName "DOUBLE" then MYSQL_TYPE_DOUBLE
  else if Contains typeName "DECIMAL" then MYSQL_TYPE_NEWDECIMAL
  else if Contains typeName "DATE" then MYSQL_TYPE_DATE
  else if Contains typeName "TIME" then
    if Contains typeName "DATETIME" || Contains typeName "TIMESTAMP" then MYSQL_TYPE_DATETIME
    else MYSQL_TYPE_TIME
  else if Contains typeName "YEAR" then MYSQL_TYPE_YEAR
  else if Contains typeName "CHAR" || Contains typeName "VARCHAR" then MYSQL_TYPE_VAR_STRING
  else if Contains typeName "TEXT" then MYSQL_TYPE_BLOB
  else if Contains typeName "BLOB" then MYSQL_TYPE_BLOB
  else if Contains typeName "JSON" then MYSQL_TYPE_JSON
  else MYSQL_TYPE_VAR_STRING

/-! ## The database collaborator -/

/-- A scanned column value, an `interface{}` of the source, by dynamic type.  The
text that a library routine produces (`strconv.FormatFloat`, `time.Format`,
`fmt.Sprintf("%v")`) is carried by the value. -/
inductive Value where
  | nil
  | string (v : List Byte)
  | bytes (v : List Byte)
  | int64 (v : Int)
  | float64 (formatted : List Byte)
  | bool (v : Bool)
  | time (formatted : List Byte)
  | other (formatted : List Byte)
  deriving DecidableEq, Repr

/-- What the program reads of a `*sql.ColumnType`: `Length()` and `Nullable()`
give a value only when their second result `ok` is true. -/
structure ColumnType where
  Length : Option Int
  DatabaseTypeName : String
  Nullable : Option Bool

/-- A `*sql.Rows`: the result of `Columns()` (names or an error message), of
`ColumnTypes()` (`nil` entries allowed, the empty list on error), and one entry
per `rows.Next()` that returns true: the values of the row, or `none` when
`Scan` fails for a reason of the driver. -/
structure Rows where
  Columns : Except (List Byte) (List (List Byte))
  ColumnTypes : List (Option ColumnType)
  Next : List (Option (List Value))

/-- A `sql.Result`: each accessor gives a value, or `none` when it returns an error. -/
structure Result where
  RowsAffected : Option Int
  LastInsertId : Option Int

/-- The database driver and the library routines the handlers call, over an
abstract state `σ` of the connection.  Errors are their messages. -/
structure Driver (σ : Type) where
  DecodeString : String → Option String
  Open : String → Except (List Byte) σ
  Ping : σ → Except (List Byte) σ
  Version : σ → Option (List Byte)
  Query : σ → String → σ × Except (List Byte) Rows
  Exec : σ → String → σ × Except (List Byte) Result

/-- The form fields of a request: `Get` of an absent field is the empty text,
`q` is the list of all values of the field `q`. -/
structure Params where
  host : String
  port : String
  login : String
  password : String
  db : String
  q : List String
  encodeBase64 : String

/-! ## Frame builder: fields and rows -/

/-- The body of the loop of `EchoFieldsHeader`, for the column of index `i`. -/
def fieldDescriptor (types : List (Option ColumnType)) (i : Nat) (column : List Byte) :
    List Byte :=
  let buf := GetBlock column ++ GetBlock []
  let fieldType : MySQLFieldType := MYSQL_TYPE_VAR_STRING
  let length : Nat := 255
  let flags : Nat := 0
  let (fieldType, length, flags) :=
    match types.get? i with
    | some (some t) =>
      let length := match t.Length with
        | some l => uint32 l
        | none => length
      let dbType := ToUpper t.DatabaseTypeName
      let fieldType := GetMySQLTypeFromName dbType
      let flags := match t.Nullable with
        | some false => flags ||| 1
        | _ => flags
      (fieldType, length, flags)
    | _ => (fieldType, length, flags)
  buf ++ GetLongBinary (fieldType % 4294967296) ++ GetLongBinary flags ++ GetLongBinary length

/-- The loop of `EchoFieldsHeader` from index `i` on. -/
def fieldsLoop (types : List (Option ColumnType)) : Nat → List (List Byte) → List Byte → List Byte
  | _, [], buf => buf
  | i, column :: rest, buf => fieldsLoop types (i + 1) rest (buf ++ fieldDescriptor types i column)

/-- `EchoFieldsHeader`: one descriptor per column. -/
def EchoFieldsHeader (columns : List (List Byte)) (types : List (Option ColumnType)) :
    List Byte :=
  fieldsLoop types 0 columns []

/-- The `switch v := col.(type)` of the row encoder: the text of a value that is
not `nil`. -/
def formatValue : Value → List Byte
  | Value.nil => []
  | Value.string v => v
  | Value.bytes v => v
  | Value.int64 v => FormatInt v
  | Value.float64 formatted => formatted
  | Value.bool v => if v then ascii "1" else ascii "0"
  | Value.time formatted => formatted
  | Value.other formatted => formatted

/-- The loop `for _, col := range columnValues` of the row encoder, writing to `buf`. -/
def writeColumns (buf : List Byte) : List Value → List Byte
  | [] => buf
  | col :: rest =>
    if col = Value.nil then writeColumns (buf ++ [0xFF]) rest
    else
      let value := formatValue col
      writeColumns (buf ++ GetBlock value) rest

/-- `rows.Scan(columnPointers...)` into `numFields` destinations: the values of
the row, or `none` on error.  `database/sql` refuses a number of destinations
other than the number of values of the row. -/
def Scan (numFields : Nat) (row : Option (List Value)) : Option (List Value) :=
  match row with
  | none => none
  | some vals => if vals.length = numFields then some vals else none

/-- The loop `for rows.Next()` of `EchoData`. -/
def dataLoop (numFields : Nat) : List (Option (List Value)) → List Byte → List Byte
  | [], buf => buf
  | row :: rest, buf =>
    match Scan numFields row with
    | none => dataLoop numFields rest buf
    | some columns => dataLoop numFields rest (writeColumns buf columns)

/-- `EchoData`: the values of all rows. -/
def EchoData (rows : Rows) (numFields : Nat) : List Byte :=
  dataLoop numFields rows.Next []

/-- `EchoConnInfo`: host description, protocol version and server version. -/
def EchoConnInfo {σ : Type} (d : Driver σ) (db : σ) : List Byte :=
  let version := match d.Version db with
    | some v => v
    | none => ascii "Unknown"
  let hostInfo := ascii "MySQL via TCP/IP"
  let protoInfo := ascii "10"
  GetBlock hostInfo ++ GetBlock protoInfo ++ GetBlock version

/-! ## Query executor -/

/-- The data source name built from the form fields. -/
def buildDSN (params : Params) : String :=
  let host := if params.host = "" then "localhost" else params.host
  let port := if params.port = "" then "3306" else params.port
  let user := params.login
  let password := params.password
  let database := params.db
  user ++ ":" ++ password ++ "@tcp(" ++ host ++ ":" ++ port ++ ")/" ++ database ++
    "?charset=utf8mb4&parseTime=true"

/-- The statements of a request: the values of `q`, each replaced by its base64
decoding when `encodeBase64` is `1` and the decoding succeeds. -/
def decodeQueries {σ : Type} (d : Driver σ) (params : Params) : List String :=
  let queries := params.q
  if params.encodeBase64 = "1" then
    queries.map (fun query =>
      match d.DecodeString query with
      | some decoded => decoded
      | none => query)
  else queries

/-- The loop `for rows.Next()` of `HandleQueryExecution`: the row counter and the
row data after the rows that are left. -/
def rowsLoop (numFields : Nat) : List (Option (List Value)) → Nat → List Byte → Nat × List Byte
  | [], rowCount, rowsData => (rowCount, rowsData)
  | row :: rest, rowCount, rowsData =>
    let rowCount := (rowCount + 1) % 4294967296
    match Scan numFields row with
    | none => rowsLoop numFields rest rowCount rowsData
    | some columnValues => rowsLoop numFields rest rowCount (writeColumns rowsData columnValues)

/-- Whether a trimmed statement is a read: `isSelect` of the source. -/
def isSelect (query : String) : Bool := HasPrefix (ToUpper query) "SELECT"

/-- The body of the loop over the statements in `HandleQueryExecution`, from
`// Execute query` up to the separator: the new state of the connection and
the bytes written to `buf` for the (trimmed, non-empty) statement `query`. -/
def executeStatement {σ : Type} (d : Driver σ) (db : σ) (query : String) : σ × List Byte :=
  let errno : Nat := 0
  let affectedRows : Nat := 0
  let insertID : Nat := 0
  let numFields : Nat := 0
  let numRows : Nat := 0
  let errorMsg : List Byte := []
  if isSelect query then
    match d.Query db query with
    | (db, Except.error _) =>
      -- errno = 1000; errorMsg = err.Error(); nothing is written to buf
      (db, [])
    | (db, Except.ok rows) =>
      match rows.Columns with
      | Except.error _ =>
        -- errno = 1000; errorMsg = err.Error(); nothing is written to buf
        (db, [])
      | Except.ok columns =>
        let numFields := columns.length % 4294967296
        let columnTypes := rows.ColumnTypes
        let fieldsHeader := EchoFieldsHeader columns columnTypes
        let (rowCount, rowsData) := rowsLoop columns.length rows.Next 0 []
        let numRows := rowCount
        let buf := EchoResultSetHeader errno affectedRows insertID numFields numRows
        if errno = 0 then (db, buf ++ fieldsHeader ++ rowsData)
        else (db, buf ++ GetBlock errorMsg)
  else
    let (db, result) := d.Exec db query
    let (errno, errorMsg, affectedRows, insertID) :=
      match result with
      | Except.error err => (1000, err, affectedRows, insertID)
      | Except.ok result =>
        let affectedRows := match result.RowsAffected with
          | some affected => uint32 affected
          | none => affectedRows
        let insertID := match result.LastInsertId with
          | some lastID => uint32 lastID
          | none => insertID
        (errno, errorMsg, affectedRows, insertID)
    let buf := EchoResultSetHeader errno affectedRows insertID numFields numRows
    if errno > 0 then (db, buf ++ GetBlock errorMsg)
    else
      let info := ascii "Rows affected: " ++ formatUint affectedRows
      (db, buf ++ GetBlock info)

/-- What one turn of the loop over the statements writes: the frames of the
statement, then one separator byte. -/
structure StatementOutput where
  frames : List Byte
  separator : Byte
  deriving DecidableEq, Repr

/-- The bytes of one turn of the loop, in the order they are written. -/
def StatementOutput.bytes (o : StatementOutput) : List Byte := o.frames ++ [o.separator]

/-- The loop `for i, query := range queries` of `HandleQueryExecution` from index
`i` on; `total` is `len(queries)`.  A statement that is empty once trimmed is
skipped by `continue` and writes nothing. -/
def queryLoop {σ : Type} (d : Driver σ) (total : Nat) :
    Nat → List String → σ → List StatementOutput
  | _, [], _ => []
  | i, query :: rest, db =>
    let query := TrimSpace query
    if query = "" then queryLoop d total (i + 1) rest db
    else
      let (db, frames) := executeStatement d db query
      let separator : Byte := if i < total - 1 then 0x01 else 0x00
      { frames := frames, separator := separator } :: queryLoop d total (i + 1) rest db

/-- `HandleQueryExecution`: the response to a request of action `Q`. -/
def HandleQueryExecution {σ : Type} (d : Driver σ) (params : Params) : List Byte :=
  let queries := decodeQueries d params
  let dsn := buildDSN params
  match d.Open dsn with
  | Except.error err => createErrorResponse 2000 err
  | Except.ok db =>
    match d.Ping db with
    | Except.error err => createErrorResponse 2000 err
    | Except.ok db =>
      let buf := EchoHeader 0
      buf ++ ((queryLoop d queries.length 0 queries db).map StatementOutput.bytes).flatten

/-- `HandleConnectionTest`: the response to a request of action `C`. -/
def HandleConnectionTest {σ : Type} (d : Driver σ) (params : Params) : List Byte :=
  let dsn := buildDSN params
  match d.Open dsn with
  | Except.error err => createErrorResponse 2000 err
  | Except.ok db =>
    match d.Ping db with
    | Except.error err => createErrorResponse 2000 err
    | Except.ok db => EchoHeader 0 ++ EchoConnInfo d db

/-! ## A concrete collaborator

A small database to run the handlers on: the connection always succeeds,
`SELECT 1` gives one row of one column, any other read fails with the message
`Unknown column`, and every write reports one affected row and the insert id 7. -/

/-- The database of the examples. -/
def exampleDriver : Driver Unit where
  DecodeString := fun _ => none
  Open := fun _ => Except.ok ()
  Ping := fun _ => Except.ok ()
  Version := fun _ => some (ascii "8.0.36")
  Query := fun _ query =>
    if query = "SELECT 1" then
      ((), Except.ok
        { Columns := Except.ok [ascii "1"]
          ColumnTypes := [some { Length := none, DatabaseTypeName := "BIGINT", Nullable := some false }]
          Next := [some [Value.int64 1]] })
    else ((), Except.error (ascii "Unknown column"))
  Exec := fun _ _ => ((), Except.ok { RowsAffected := some 1, LastInsertId := some 7 })

/-- A request of the examples with the statements `q`, every other field absent. -/
def exampleParams (q : List String) : Params where
  host := ""
  port := ""
  login := ""
  password := ""
  db := ""
  q := q
  encodeBase64 := ""

/-- The database of the examples behind a server that refuses the connection:
`sql.Open` fails. -/
def refusingDriver : Driver Unit :=
  { exampleDriver with Open := fun _ => Except.error (ascii "connection refused") }

/-- The database of the examples behind a server that does not answer: `sql.Open`
succeeds and `db.Ping` fails. -/
def silentDriver : Driver Unit :=
  { exampleDriver with Ping := fun _ => Except.error (ascii "i/o timeout") }

/-- A database whose every read gives two rows of one column `n`, without column
types; `Scan` succeeds on the first row, with the value 1, and fails on the
second. -/
def scanFailDriver : Driver Unit :=
  { exampleDriver with
    Query := fun _ _ =>
      ((), Except.ok
        { Columns := Except.ok [ascii "n"]
          ColumnTypes := []
          Next := [some [Value.int64 1], none] }) }

/-! ## Reading the wire format back (specification side)

The server only writes the wire format; it has no decoder.  The readers below
state the rules of the protocol for a client, in the words of the wire layout,
so that the encoder can be checked against them.  The script of the test page
reads the message of an error response by the same two cases (`getBlockStr`). -/

/-- The unsigned integer that four bytes spell big-endian. -/
def beU32 (a b c d : Byte) : Nat :=
  a.val * 16777216 + b.val * 65536 + c.val * 256 + d.val

/-- The unsigned integer that two bytes spell big-endian. -/
def beU16 (a b : Byte) : Nat := a.val * 256 + b.val

/-- Big-endian `u32` at offset `off` of a byte sequence, when four bytes are there. -/
def readU32 (bs : List Byte) (off : Nat) : Option Nat :=
  match bs.drop off with
  | a :: b :: c :: d :: _ => some (beU32 a b c d)
  | _ => none

/-- Big-endian `u16` at offset `off` of a byte sequence, when two bytes are there. -/
def readU16 (bs : List Byte) (off : Nat) : Option Nat :=
  match bs.drop off with
  | a :: b :: _ => some (beU16 a b)
  | _ => none

/-- The block rule of the protocol: a first byte `n < 254` is followed by `n`
payload bytes; a first byte `0xFE` is followed by a four-byte big-endian length
and that many payload bytes.  The value is the payload and the bytes left
after the block; `none` when the input does not start with a whole block. -/
def decodeBlock : List Byte → Option (List Byte × List Byte)
  | [] => none
  | n :: rest =>
    if n.val < 254 then
      if n.val ≤ rest.length then some (rest.take n.val, rest.drop n.val) else none
    else if n.val = 254 then
      match rest with
      | a :: b :: c :: d :: body =>
        let len := beU32 a b c d
        if len ≤ body.length then some (body.take len, body.drop len) else none
      | _ => none
    else none

/-- One value of RowData as a client reads it: the byte `0xFF` is a null, anything
else is a Block.  The value is the text (`none` for null) and the bytes left. -/
def decodeValue : List Byte → Option (Option (List Byte) × List Byte)
  | [] => none
  | n :: rest =>
    if n.val = 255 then some (none, rest)
    else
      match decodeBlock (n :: rest) with
      | some (text, left) => some (some text, left)
      | none => none

/-- Reads `k` values of RowData one after the other. -/
def decodeValues : Nat → List Byte → Option (List (Option (List Byte)) × List Byte)
  | 0, bs => some ([], bs)
  | k + 1, bs =>
    match decodeValue bs with
    | none => none
    | some (v, left) =>
      match decodeValues k left with
      | none => none
      | some (vs, left) => some (v :: vs, left)

/-- A nullable text as a scanned column value. -/
def Value.ofText : Option (List Byte) → Value
  | none => Value.nil
  | some text => Value.string text

/-- A nullable text as a scanned column value of dynamic type `[]byte`, the
other way a text reaches the row encoder. -/
def Value.ofBytes : Option (List Byte) → Value
  | none => Value.nil
  | some text => Value.bytes text

/-- The text that the protocol transmits for a column value, in the words of
the value formatter of the specification: a text is itself, a binary payload
is its bytes, an integer is a minus sign (for a negative one) and the decimal
digits of its absolute value, a boolean is `1` or `0`, a value formatted by a
library routine is the text of that routine; a null has no text. -/
def Value.text : Value → Option (List Byte)
  | Value.nil => none
  | Value.string v => some v
  | Value.bytes v => some v
  | Value.int64 v =>
    if v < 0 then some (45 :: ascii (Nat.repr v.natAbs)) else some (ascii (Nat.repr v.toNat))
  | Value.float64 formatted => some formatted
  | Value.bool v => if v then some [49] else some [48]
  | Value.time formatted => some formatted
  | Value.other formatted => some formatted

/-- The bytes of one nullable text in RowData: `0xFF` for a null, a Block otherwise. -/
def wireText : Option (List Byte) → List Byte
  | none => [0xFF]
  | some text => GetBlock text

/-! ## Lemmas on the primitive encoder -/

theorem byte_val (n : Nat) : (byte n).val = n % 256 := rfl

theorem make_succ (n : Nat) : make (n + 1) = 0 :: make n := rfl

theorem copy_make (n : Nat) (src : List Byte) (h : src.length = n) :
    copy (make n) src = src := by
  subst h
  simp [copy, make]

theorem GetLongBinary_eq (n : Nat) :
    GetLongBinary n = [byte (n >>> 24), byte (n >>> 16), byte (n >>> 8), byte n] := rfl

theorem GetShortBinary_eq (n : Nat) :
    GetShortBinary n = [byte (n >>> 8), byte n] := rfl

theorem beU32_GetLongBinary (n : Nat) (h : n < 4294967296) :
    beU32 (byte (n >>> 24)) (byte (n >>> 16)) (byte (n >>> 8)) (byte n) = n := by
  simp only [beU32, byte_val, Nat.shiftRight_eq_div_pow]
  omega

theorem GetBlock_short (b : List Byte) (h : b.length < 254) :
    GetBlock b = byte b.length :: b := by
  have h1 : 1 + b.length = b.length + 1 := Nat.add_comm _ _
  simp only [GetBlock, h, if_true, h1, make_succ, List.set_cons_zero, List.take_succ_cons,
    List.take_zero, List.drop_succ_cons, List.drop_zero, copy_make _ _ rfl]
  rfl

theorem GetBlock_long (b : List Byte) (h : 254 ≤ b.length) :
    GetBlock b = 0xFE :: (GetLongBinary (b.length % 4294967296) ++ b) := by
  have h0 : ¬ b.length < 254 := by omega
  have h1 : 5 + b.length = b.length + 1 + 1 + 1 + 1 + 1 := by omega
  simp only [GetBlock, h0, if_false, h1, make_succ, List.set_cons_zero, List.take_succ_cons,
    List.take_zero, List.drop_succ_cons, List.drop_zero, PutUint32, List.set_cons_succ,
    List.cons_append, List.nil_append, copy_make _ _ rfl, GetLongBinary_eq]

theorem decodeBlock_GetBlock (b t : List Byte) (h : b.length < 4294967296) :
    decodeBlock (GetBlock b ++ t) = some (b, t) := by
  by_cases hs : b.length < 254
  · have hv : (byte b.length).val = b.length := by
      rw [byte_val]; omega
    rw [GetBlock_short b hs]
    simp only [List.cons_append, decodeBlock, hv, hs, if_true, List.length_append,
      Nat.le_add_right, List.take_left, List.drop_left]
  · have hl : 254 ≤ b.length := by omega
    rw [GetBlock_long b hl, Nat.mod_eq_of_lt h, GetLongBinary_eq]
    have h254 : ((0xFE : Byte)).val = 254 := rfl
    simp only [List.cons_append, List.nil_append, decodeBlock, h254, lt_irrefl, if_false,
      if_true, beU32_GetLongBinary _ h, List.length_append, Nat.le_add_right, List.take_left,
      List.drop_left]

theorem GetLongBinary_div (n : Nat) :
    GetLongBinary n = [byte (n / 16777216), byte (n / 65536), byte (n / 256), byte n] := by
  simp only [GetLongBinary_eq, Nat.shiftRight_eq_div_pow]

theorem beU32_bytes_mod (n : Nat) :
    beU32 (byte (n / 16777216)) (byte (n / 65536)) (byte (n / 256)) (byte n)
      = n % 4294967296 := by
  simp only [beU32, byte_val]
  omega

theorem beU32_bytes (n : Nat) (h : n < 4294967296) :
    beU32 (byte (n / 16777216)) (byte (n / 65536)) (byte (n / 256)) (byte n) = n := by
  rw [beU32_bytes_mod, Nat.mod_eq_of_lt h]

theorem EchoHeader_eq (e : Nat) :
    EchoHeader e = [0, 0, 4, 87, 0, 202, byte (e / 16777216), byte (e / 65536), byte (e / 256),
      byte e, 0, 0, 0, 0, 0, 0] := by
  simp only [EchoHeader, GetLongBinary_div, GetShortBinary_eq, GetDummy, make]
  rfl

theorem EchoResultSetHeader_eq (errno affectedRows insertID numFields numRows : Nat) :
    EchoResultSetHeader errno affectedRows insertID numFields numRows =
      [byte (errno / 16777216), byte (errno / 65536), byte (errno / 256), byte errno,
       byte (affectedRows / 16777216), byte (affectedRows / 65536), byte (affectedRows / 256),
       byte affectedRows,
       byte (insertID / 16777216), byte (insertID / 65536), byte (insertID / 256), byte insertID,
       byte (numFields / 16777216), byte (numFields / 65536), byte (numFields / 256),
       byte numFields,
       byte (numRows / 16777216), byte (numRows / 65536), byte (numRows / 256), byte numRows,
       0, 0, 0, 0, 0, 0, 0, 0, 0, 0, 0, 0] := by
  simp only [EchoResultSetHeader, GetLongBinary_div, GetDummy, make]
  rfl

/-! ## Lemmas on the type mapper -/

theorem containsChars_iff (s sub : List Char) :
    containsChars s sub = true ↔ sub <:+: s := by
  induction s with
  | nil =>
    cases sub <;> simp [containsChars]
  | cons c cs ih =>
    rw [containsChars, Bool.or_eq_true, ih, List.isPrefixOf_iff_prefix, List.infix_cons_iff]

theorem Contains_of_infix (s a b : String) (hab : b.toList <:+: a.toList)
    (h : Contains s a = true) : Contains s b = true := by
  unfold Contains at *
  rw [containsChars_iff] at *
  exact List.IsInfix.trans hab h

theorem Contains_INT_of_BIGINT (s : String) (h : Contains s "BIGINT" = true) :
    Contains s "INT" = true :=
  Contains_of_infix s "BIGINT" "INT" ⟨['B', 'I', 'G'], [], rfl⟩ h

/-! ## Lemmas on the row encoder -/

theorem GetBlock_head_val_le (text : List Byte) :
    ∃ n rest, GetBlock text = n :: rest ∧ n.val ≤ 254 := by
  by_cases hs : text.length < 254
  · refine ⟨byte text.length, text, GetBlock_short text hs, ?_⟩
    rw [byte_val]; omega
  · exact ⟨0xFE, _, GetBlock_long text (by omega), Nat.le_refl 254⟩

theorem GetBlock_head_ne_FF (text : List Byte) : (GetBlock text).head? ≠ some 0xFF := by
  obtain ⟨n, rest, e, hn⟩ := GetBlock_head_val_le text
  rw [e]
  intro hc
  simp only [List.head?_cons, Option.some.injEq] at hc
  have h255 : ((0xFF : Byte)).val = 255 := rfl
  rw [hc, h255] at hn
  omega

theorem decodeValue_null (t : List Byte) : decodeValue (0xFF :: t) = some (none, t) := rfl

theorem decodeValue_GetBlock (text t : List Byte) (h : text.length < 4294967296) :
    decodeValue (GetBlock text ++ t) = some (some text, t) := by
  have hd := decodeBlock_GetBlock text t h
  obtain ⟨n, rest, e, hn⟩ := GetBlock_head_val_le text
  rw [e] at hd ⊢
  have hne : ¬ n.val = 255 := by omega
  simp only [List.cons_append] at hd ⊢
  simp only [decodeValue, hne, if_false, hd]

theorem writeColumns_append (buf : List Byte) (vals : List Value) :
    writeColumns buf vals = buf ++ writeColumns [] vals := by
  induction vals generalizing buf with
  | nil => simp [writeColumns]
  | cons col rest ih =>
    unfold writeColumns
    by_cases hc : col = Value.nil
    · rw [if_pos hc, if_pos hc, ih (buf ++ [0xFF]), ih ([] ++ [0xFF])]
      simp only [List.append_assoc, List.nil_append]
    · rw [if_neg hc, if_neg hc]
      simp only
      rw [ih (buf ++ GetBlock (formatValue col)), ih ([] ++ GetBlock (formatValue col))]
      simp only [List.append_assoc, List.nil_append]

theorem writeColumns_ofText (row : List (Option (List Byte))) :
    writeColumns [] (row.map Value.ofText) = (row.map wireText).flatten := by
  induction row with
  | nil => rfl
  | cons v rest ih =>
    rw [List.map_cons, writeColumns]
    cases v with
    | none =>
      have he : Value.ofText none = Value.nil := rfl
      rw [if_pos he, writeColumns_append, ih]
      rfl
    | some text =>
      have hne : Value.ofText (some text) ≠ Value.nil := by
        intro hc; cases hc
      rw [if_neg hne]
      simp only
      rw [writeColumns_append, ih]
      rfl

theorem decodeValues_wire (row : List (Option (List Byte))) (t : List Byte)
    (h : ∀ text, some text ∈ row → text.length < 4294967296) :
    decodeValues row.length ((row.map wireText).flatten ++ t) = some (row, t) := by
  induction row with
  | nil => rfl
  | cons v rest ih =>
    have ih2 := ih (fun text hm => h text (List.mem_cons_of_mem _ hm))
    simp only [List.map_cons, List.flatten_cons, List.length_cons, List.append_assoc]
    cases v with
    | none =>
      simp only [wireText, List.cons_append, List.nil_append, decodeValues, decodeValue_null, ih2]
    | some text =>
      have ht := h text (List.mem_cons_self _ _)
      simp only [wireText, decodeValues, decodeValue_GetBlock _ _ ht, ih2]

/-! ## Lemmas on the query executor -/

theorem uint32_lt (i : Int) : uint32 i < 4294967296 := by
  unfold uint32; omega

theorem uint32_cast (i : Int) : ((uint32 i : Nat) : Int) = i % 4294967296 := by
  unfold uint32; omega

theorem readU32_EchoResultSetHeader_append (errno affected insertId numFields numRows : Nat)
    (h1 : errno < 4294967296) (h2 : affected < 4294967296) (h3 : insertId < 4294967296)
    (h4 : numFields < 4294967296) (h5 : numRows < 4294967296) (body : List Byte) :
    readU32 (EchoResultSetHeader errno affected insertId numFields numRows ++ body) 0
      = some errno ∧
    readU32 (EchoResultSetHeader errno affected insertId numFields numRows ++ body) 4
      = some affected ∧
    readU32 (EchoResultSetHeader errno affected insertId numFields numRows ++ body) 8
      = some insertId ∧
    readU32 (EchoResultSetHeader errno affected insertId numFields numRows ++ body) 12
      = some numFields ∧
    readU32 (EchoResultSetHeader errno affected insertId numFields numRows ++ body) 16
      = some numRows ∧
    (EchoResultSetHeader errno affected insertId numFields numRows ++ body).drop 32 = body := by
  rw [EchoResultSetHeader_eq]
  refine ⟨?_, ?_, ?_, ?_, ?_, rfl⟩
  · show some (beU32 _ _ _ _) = some errno
    rw [beU32_bytes _ h1]
  · show some (beU32 _ _ _ _) = some affected
    rw [beU32_bytes _ h2]
  · show some (beU32 _ _ _ _) = some insertId
    rw [beU32_bytes _ h3]
  · show some (beU32 _ _ _ _) = some numFields
    rw [beU32_bytes _ h4]
  · show some (beU32 _ _ _ _) = some numRows
    rw [beU32_bytes _ h5]

theorem executeStatement_exec_ok {σ : Type} (d : Driver σ) (db db' : σ) (query : String)
    (result : Result) (hw : isSelect query = false)
    (he : d.Exec db query = (db', Except.ok result)) :
    executeStatement d db query =
      (db', EchoResultSetHeader 0 (uint32 (result.RowsAffected.getD 0))
          (uint32 (result.LastInsertId.getD 0)) 0 0 ++
        GetBlock (ascii "Rows affected: " ++ formatUint (uint32 (result.RowsAffected.getD 0)))) := by
  have h0 : uint32 0 = 0 := rfl
  unfold executeStatement
  simp only [hw, he]
  cases hra : result.RowsAffected <;> cases hli : result.LastInsertId <;>
    simp [h0]

theorem executeStatement_query_error {σ : Type} (d : Driver σ) (db db' : σ) (query : String)
    (m : List Byte) (hr : isSelect query = true)
    (he : d.Query db query = (db', Except.error m)) :
    executeStatement d db query = (db', []) := by
  unfold executeStatement
  simp only [hr, he, if_true]

theorem queryLoop_blank {σ : Type} (d : Driver σ) (total i : Nat) (query : String)
    (rest : List String) (db : σ) (hb : TrimSpace query = "") :
    queryLoop d total i (query :: rest) db = queryLoop d total (i + 1) rest db := by
  rw [queryLoop]
  simp only [hb, if_true]

theorem queryLoop_statement {σ : Type} (d : Driver σ) (total i : Nat) (query : String)
    (rest : List String) (db : σ) (hb : TrimSpace query ≠ "") :
    queryLoop d total i (query :: rest) db =
      { frames := (executeStatement d db (TrimSpace query)).2,
        separator := if i < total - 1 then 0x01 else 0x00 } ::
      queryLoop d total (i + 1) rest (executeStatement d db (TrimSpace query)).1 := by
  rw [queryLoop]
  simp only [hb, if_false]

theorem queryLoop_last_not_blank {σ : Type} (d : Driver σ) (total : Nat) (last : String)
    (hlast : TrimSpace last ≠ "") :
    ∀ (qs : List String) (i : Nat) (db : σ), i + qs.length + 1 = total →
      ∃ (init : List StatementOutput) (lastOut : StatementOutput),
        queryLoop d total i (qs ++ [last]) db = init ++ [lastOut] ∧
        lastOut.separator = 0x00 ∧ (∀ o ∈ init, o.separator = 0x01) ∧
        init.length = (qs.filter (fun q => decide (TrimSpace q ≠ ""))).length := by
  intro qs
  induction qs with
  | nil =>
    intro i db hi
    refine ⟨[], StatementOutput.mk (executeStatement d db (TrimSpace last)).2
      (if i < total - 1 then 0x01 else 0x00), ?_, ?_, ?_, rfl⟩
    · rw [List.nil_append, queryLoop_statement d total i last [] db hlast, queryLoop]
      rfl
    · have hn : ¬ i < total - 1 := by
        simp only [List.length_nil] at hi; omega
      simp only [hn, if_false]
    · intro o ho
      cases ho
  | cons q qs ih =>
    intro i db hi
    have hi2 : (i + 1) + qs.length + 1 = total := by
      simp only [List.length_cons] at hi; omega
    by_cases hb : TrimSpace q = ""
    · obtain ⟨init, lastOut, e, h0, h1, hl⟩ := ih (i + 1) db hi2
      refine ⟨init, lastOut, ?_, h0, h1, ?_⟩
      · rw [List.cons_append, queryLoop_blank d total i q _ db hb, e]
      · rw [hl, List.filter_cons_of_neg (by simpa using hb)]
    · obtain ⟨init, lastOut, e, h0, h1, hl⟩ :=
        ih (i + 1) (executeStatement d db (TrimSpace q)).1 hi2
      refine ⟨StatementOutput.mk (executeStatement d db (TrimSpace q)).2
        (if i < total - 1 then 0x01 else 0x00) :: init, lastOut, ?_, h0, ?_, ?_⟩
      · rw [List.cons_append, queryLoop_statement d total i q _ db hb, e]
        rfl
      · intro o ho
        rcases List.mem_cons.1 ho with rfl | ho
        · have hlt : i < total - 1 := by omega
          simp only [hlt, if_true]
        · exact h1 o ho
      · rw [List.filter_cons_of_pos (by simpa using hb), List.length_cons, List.length_cons, hl]

/-! ## Lemmas on the connection and on the row loop -/

theorem createErrorResponse_eq (errno : Nat) (message : List Byte) :
    createErrorResponse errno message = EchoHeader errno ++ GetBlock message := rfl

theorem HandleQueryExecution_open_error {σ : Type} (d : Driver σ) (params : Params)
    (m : List Byte) (h : d.Open (buildDSN params) = Except.error m) :
    HandleQueryExecution d params = EchoHeader 2000 ++ GetBlock m := by
  simp only [HandleQueryExecution, h, createErrorResponse_eq]

theorem HandleQueryExecution_ping_error {σ : Type} (d : Driver σ) (params : Params)
    (db0 : σ) (m : List Byte) (h : d.Open (buildDSN params) = Except.ok db0)
    (hp : d.Ping db0 = Except.error m) :
    HandleQueryExecution d params = EchoHeader 2000 ++ GetBlock m := by
  simp only [HandleQueryExecution, h, hp, createErrorResponse_eq]

theorem HandleConnectionTest_open_error {σ : Type} (d : Driver σ) (params : Params)
    (m : List Byte) (h : d.Open (buildDSN params) = Except.error m) :
    HandleConnectionTest d params = EchoHeader 2000 ++ GetBlock m := by
  simp only [HandleConnectionTest, h, createErrorResponse_eq]

theorem HandleConnectionTest_ping_error {σ : Type} (d : Driver σ) (params : Params)
    (db0 : σ) (m : List Byte) (h : d.Open (buildDSN params) = Except.ok db0)
    (hp : d.Ping db0 = Except.error m) :
    HandleConnectionTest d params = EchoHeader 2000 ++ GetBlock m := by
  simp only [HandleConnectionTest, h, hp, createErrorResponse_eq]

theorem rowsLoop_count (numFields : Nat) :
    ∀ (rows : List (Option (List Value))) (rowCount : Nat) (rowsData : List Byte),
      rowCount < 4294967296 →
      (rowsLoop numFields rows rowCount rowsData).1
        = (rowCount + rows.length) % 4294967296 := by
  intro rows
  induction rows with
  | nil =>
    intro rowCount rowsData hc
    rw [rowsLoop, List.length_nil, Nat.add_zero, Nat.mod_eq_of_lt hc]
  | cons row rest ih =>
    intro rowCount rowsData hc
    have hlt : (rowCount + 1) % 4294967296 < 4294967296 := Nat.mod_lt _ (by decide)
    rw [rowsLoop]
    cases hs : Scan numFields row with
    | none =>
      simp only [ih _ _ hlt, List.length_cons]
      omega
    | some columnValues =>
      simp only [ih _ _ hlt, List.length_cons]
      omega

theorem rowsLoop_data (numFields : Nat) :
    ∀ (rows : List (Option (List Value))) (rowCount : Nat) (rowsData : List Byte),
      (rowsLoop numFields rows rowCount rowsData).2
        = rowsData ++ ((rows.filterMap (Scan numFields)).map (writeColumns [])).flatten := by
  intro rows
  induction rows with
  | nil =>
    intro rowCount rowsData
    simp [rowsLoop]
  | cons row rest ih =>
    intro rowCount rowsData
    rw [rowsLoop]
    cases hs : Scan numFields row with
    | none =>
      simp only [ih, List.filterMap_cons, hs]
    | some columnValues =>
      simp only [ih, List.filterMap_cons, hs, List.map_cons, List.flatten_cons]
      rw [writeColumns_append, List.append_assoc]

theorem executeStatement_select_ok {σ : Type} (d : Driver σ) (db db' : σ) (query : String)
    (rows : Rows) (columns : List (List Byte)) (hr : isSelect query = true)
    (hq : d.Query db query = (db', Except.ok rows)) (hc : rows.Columns = Except.ok columns) :
    executeStatement d db query =
      (db', EchoResultSetHeader 0 0 0 (columns.length % 4294967296)
          (rows.Next.length % 4294967296) ++
        EchoFieldsHeader columns rows.ColumnTypes ++
        ((rows.Next.filterMap (Scan columns.length)).map (writeColumns [])).flatten) := by
  have h1 := rowsLoop_count columns.length rows.Next 0 [] (by decide)
  have h2 := rowsLoop_data columns.length rows.Next 0 []
  rw [Nat.zero_add] at h1
  rw [List.nil_append] at h2
  unfold executeStatement
  simp only [hr, hq, hc, if_true, h1, h2]

theorem filterMap_Scan_all_ok (numFields : Nat) (rows : List (List Value))
    (h : ∀ r ∈ rows, r.length = numFields) :
    (rows.map some).filterMap (Scan numFields) = rows := by
  induction rows with
  | nil => rfl
  | cons r rest ih =>
    have hr : r.length = numFields := h r (List.mem_cons_self _ _)
    have ih2 := ih (fun x hx => h x (List.mem_cons_of_mem _ hx))
    simp only [List.map_cons, List.filterMap_cons, Scan, hr, if_true, ih2]

theorem executeStatement_select_all_scanned {σ : Type} (d : Driver σ) (db db' : σ)
    (query : String) (rows : Rows) (columns : List (List Byte)) (scanned : List (List Value))
    (hr : isSelect query = true) (hq : d.Query db query = (db', Except.ok rows))
    (hc : rows.Columns = Except.ok columns) (hn : rows.Next = scanned.map some)
    (hl : ∀ r ∈ scanned, r.length = columns.length) :
    executeStatement d db query =
      (db', EchoResultSetHeader 0 0 0 (columns.length % 4294967296)
          (scanned.length % 4294967296) ++
        EchoFieldsHeader columns rows.ColumnTypes ++
        (scanned.map (writeColumns [])).flatten) := by
  rw [executeStatement_select_ok d db db' query rows columns hr hq hc, hn,
    filterMap_Scan_all_ok _ _ hl, List.length_map]

/-! ## Lemmas on the row encoder, for every kind of value -/

theorem Value.text_of_ne_nil (v : Value) (h : v ≠ Value.nil) :
    Value.text v = some (formatValue v) := by
  cases v with
  | nil => exact absurd rfl h
  | string v => rfl
  | bytes v => rfl
  | int64 v =>
    cases v with
    | ofNat m =>
      have hn : ¬ (Int.ofNat m < 0) := not_lt.mpr (Int.ofNat_nonneg m)
      simp only [Value.text, hn, if_false]
      rfl
    | negSucc m =>
      have hn : Int.negSucc m < 0 := Int.negSucc_lt_zero m
      simp only [Value.text, hn, if_true]
      rfl
  | float64 formatted => rfl
  | bool v => cases v <;> rfl
  | time formatted => rfl
  | other formatted => rfl

theorem writeColumns_text (vals : List Value) :
    writeColumns [] vals = ((vals.map Value.text).map wireText).flatten := by
  induction vals with
  | nil => rfl
  | cons v rest ih =>
    rw [List.map_cons, List.map_cons, List.flatten_cons, writeColumns]
    by_cases hv : v = Value.nil
    · rw [if_pos hv, writeColumns_append, ih, hv]
      rfl
    · rw [if_neg hv]
      simp only
      rw [writeColumns_append, ih, Value.text_of_ne_nil v hv]
      rfl

theorem map_text_ofText (row : List (Option (List Byte))) :
    (row.map Value.ofText).map Value.text = row := by
  induction row with
  | nil => rfl
  | cons v rest ih =>
    rw [List.map_cons, List.map_cons, ih]
    cases v <;> rfl

theorem map_text_ofBytes (row : List (Option (List Byte))) :
    (row.map Value.ofBytes).map Value.text = row := by
  induction row with
  | nil => rfl
  | cons v rest ih =>
    rw [List.map_cons, List.map_cons, ih]
    cases v <;> rfl

theorem writeColumns_ofBytes (row : List (Option (List Byte))) :
    writeColumns [] (row.map Value.ofBytes) = (row.map wireText).flatten := by
  have h := writeColumns_text (row.map Value.ofBytes)
  rw [map_text_ofBytes] at h
  exact h

theorem decodeValues_writeColumns (vals : List Value) (t : List Byte)
    (h : ∀ v ∈ vals, ∀ text, Value.text v = some text → text.length < 4294967296) :
    decodeValues vals.length (writeColumns [] vals ++ t) = some (vals.map Value.text, t) := by
  have hw := writeColumns_text vals
  have hd := decodeValues_wire (vals.map Value.text) t (by
    intro text hm
    obtain ⟨v, hv, e⟩ := List.mem_map.1 hm
    exact h v hv text e)
  rw [List.length_map] at hd
  rw [hw]
  exact hd

/-! ## Theorems -/

/-- C1. Block round trip: for every byte sequence `b` shorter than 2^32 and every
trailing byte sequence `t`, reading `GetBlock b ++ t` by the block rule of the
protocol gives back exactly `b` and leaves exactly `t`. -/
theorem block_round_trip (b t : List Byte) (h : b.length < 4294967296) :
    decodeBlock (GetBlock b ++ t) = some (b, t) :=
  decodeBlock_GetBlock b t h

theorem block_round_trip_witness :
    (List.replicate 254 (7 : Byte)).length < 4294967296 ∧
    decodeBlock (GetBlock (List.replicate 254 7) ++ [9]) = some (List.replicate 254 7, [9]) :=
  ⟨by rw [List.length_replicate]; decide,
    block_round_trip (List.replicate 254 7) [9] (by rw [List.length_replicate]; decide)⟩

/-- C2. Block layout and boundary: a value `b` shorter than 254 bytes is encoded
as the single byte `len b` followed by `b` (`1 + len b` bytes), so the first
byte of a short block is neither `0xFE` nor `0xFF`; any other value is encoded
as the byte `0xFE`, the four bytes that spell `len b` big-endian (`len b`
as a `uint32`, that is modulo 2^32), then `b` (`5 + len b` bytes). -/
theorem GetBlock_layout (b : List Byte) :
    (b.length < 254 →
      GetBlock b = byte b.length :: b ∧ (byte b.length).val = b.length ∧
      (GetBlock b).length = 1 + b.length ∧
      (GetBlock b).head? ≠ some 0xFE ∧ (GetBlock b).head? ≠ some 0xFF) ∧
    (254 ≤ b.length →
      GetBlock b = 0xFE :: byte (b.length / 16777216) :: byte (b.length / 65536) ::
        byte (b.length / 256) :: byte b.length :: b ∧
      readU32 (GetBlock b) 1 = some (b.length % 4294967296) ∧
      (b.length < 4294967296 → readU32 (GetBlock b) 1 = some b.length) ∧
      (GetBlock b).length = 5 + b.length) := by
  constructor
  · intro hs
    have hv : (byte b.length).val = b.length := by
      rw [byte_val]; omega
    have hFE : byte b.length ≠ (0xFE : Byte) := by
      intro hc
      have := congrArg Fin.val hc
      rw [hv] at this
      have h254 : ((0xFE : Byte)).val = 254 := rfl
      omega
    have hFF : byte b.length ≠ (0xFF : Byte) := by
      intro hc
      have := congrArg Fin.val hc
      rw [hv] at this
      have h255 : ((0xFF : Byte)).val = 255 := rfl
      omega
    rw [GetBlock_short b hs]
    refine ⟨rfl, hv, ?_, ?_, ?_⟩
    · simp only [List.length_cons]; omega
    · simpa using hFE
    · simpa using hFF
  · intro hl
    have hmod := beU32_bytes_mod b.length
    have hdiv : GetLongBinary (b.length % 4294967296) = [byte (b.length / 16777216),
        byte (b.length / 65536), byte (b.length / 256), byte b.length] := by
      rw [GetLongBinary_div]
      have e1 : byte (b.length % 4294967296 / 16777216) = byte (b.length / 16777216) := by
        apply Fin.ext; simp only [byte_val]; omega
      have e2 : byte (b.length % 4294967296 / 65536) = byte (b.length / 65536) := by
        apply Fin.ext; simp only [byte_val]; omega
      have e3 : byte (b.length % 4294967296 / 256) = byte (b.length / 256) := by
        apply Fin.ext; simp only [byte_val]; omega
      have e4 : byte (b.length % 4294967296) = byte b.length := by
        apply Fin.ext; simp only [byte_val]; omega
      rw [e1, e2, e3, e4]
    have hr : readU32 (GetBlock b) 1 = some (b.length % 4294967296) := by
      rw [GetBlock_long b hl, hdiv]
      simp only [readU32, List.cons_append, List.nil_append, List.drop_succ_cons, List.drop_zero,
        hmod]
    refine ⟨?_, hr, ?_, ?_⟩
    · rw [GetBlock_long b hl, hdiv]; rfl
    · intro h32
      rw [hr, Nat.mod_eq_of_lt h32]
    · rw [GetBlock_long b hl, hdiv]
      simp only [List.cons_append, List.nil_append, List.length_cons]; omega

theorem GetBlock_layout_witness :
    (GetBlock (List.replicate 253 (7 : Byte))).head? ≠ some 0xFE ∧
    (GetBlock (List.replicate 253 (7 : Byte))).length = 1 + 253 ∧
    readU32 (GetBlock (List.replicate 254 (7 : Byte))) 1 = some 254 ∧
    (GetBlock (List.replicate 255 (7 : Byte))).length = 5 + 255 :=
  ⟨((GetBlock_layout (List.replicate 253 7)).1
      (by rw [List.length_replicate]; decide)).2.2.2.1,
   by
    have h := ((GetBlock_layout (List.replicate 253 7)).1
      (by rw [List.length_replicate]; decide)).2.2.1
    rwa [List.length_replicate] at h,
   by
    have h := ((GetBlock_layout (List.replicate 254 7)).2
      (by rw [List.length_replicate])).2.2.1 (by rw [List.length_replicate]; decide)
    rwa [List.length_replicate] at h,
   by
    have h := ((GetBlock_layout (List.replicate 255 7)).2
      (by rw [List.length_replicate]; decide)).2.2.2
    rwa [List.length_replicate] at h⟩

/-- C3. For every 32-bit error code `e`, `EchoHeader e` is exactly 16 bytes: 1111
as a big-endian u32, 202 as a big-endian u16, `e` as a big-endian u32 at offset
6, and six zero bytes. -/
theorem EchoHeader_layout (e : Nat) (h : e < 4294967296) :
    EchoHeader e = [0, 0, 4, 87, 0, 202, byte (e / 16777216), byte (e / 65536), byte (e / 256),
      byte e, 0, 0, 0, 0, 0, 0] ∧
    (EchoHeader e).length = 16 ∧
    readU32 (EchoHeader e) 0 = some 1111 ∧
    readU16 (EchoHeader e) 4 = some 202 ∧
    readU32 (EchoHeader e) 6 = some e ∧
    (EchoHeader e).drop 10 = List.replicate 6 0 := by
  rw [EchoHeader_eq]
  refine ⟨rfl, rfl, rfl, rfl, ?_, rfl⟩
  simp only [readU32, List.drop_succ_cons, List.drop_zero, beU32_bytes e h]

theorem EchoHeader_layout_witness :
    (2000 : Nat) < 4294967296 ∧ (EchoHeader 2000).length = 16 ∧
    readU32 (EchoHeader 2000) 6 = some 2000 :=
  ⟨by decide, (EchoHeader_layout 2000 (by decide)).2.1,
    (EchoHeader_layout 2000 (by decide)).2.2.2.2.1⟩

/-- C4, as the claim states it, fails on the batch `["SELECT 1", " "]`: the
statement that is blank is skipped together with its separator, the only
separator written is `0x01`, and the response ends with `0x01`. -/
theorem trailing_blank_statement_ends_with_01 :
    (queryLoop exampleDriver 2 0 ["SELECT 1", " "] ()).map StatementOutput.separator = [0x01] ∧
    ((queryLoop exampleDriver 2 0 ["SELECT 1", " "] ()).map StatementOutput.separator).count 0x00
      = 0 ∧
    (HandleQueryExecution exampleDriver (exampleParams ["SELECT 1", " "])).getLast?
      = some 0x01 := by
  decide

/-- C4, amended. Over a successful connection, for every batch whose last
statement is not empty once trimmed: each statement that is not empty once
trimmed writes its frames and then one separator byte, `0x00` for the last
statement of the batch and `0x01` for every other one; a statement that is
empty once trimmed writes nothing; hence the response ends with `0x00` and
`0x00` is written as a separator exactly once. -/
theorem separators_when_last_statement_not_blank {σ : Type} (d : Driver σ) (params : Params)
    (db0 db : σ) (qs : List String) (last : String)
    (hopen : d.Open (buildDSN params) = Except.ok db0) (hping : d.Ping db0 = Except.ok db)
    (hq : decodeQueries d params = qs ++ [last]) (hlast : TrimSpace last ≠ "") :
    ∃ (init : List StatementOutput) (lastOut : StatementOutput),
      queryLoop d (qs ++ [last]).length 0 (qs ++ [last]) db = init ++ [lastOut] ∧
      HandleQueryExecution d params =
        EchoHeader 0 ++ ((init ++ [lastOut]).map StatementOutput.bytes).flatten ∧
      init.length = (qs.filter (fun q => decide (TrimSpace q ≠ ""))).length ∧
      (∀ o ∈ init, o.separator = 0x01) ∧ lastOut.separator = 0x00 ∧
      ((init ++ [lastOut]).map StatementOutput.separator).count 0x00 = 1 ∧
      (HandleQueryExecution d params).getLast? = some 0x00 := by
  obtain ⟨init, lastOut, e, h0, h1, hl⟩ :=
    queryLoop_last_not_blank d (qs ++ [last]).length last hlast qs 0 db
      (by simp only [List.length_append, List.length_singleton]; omega)
  have hH : HandleQueryExecution d params =
      EchoHeader 0 ++ ((init ++ [lastOut]).map StatementOutput.bytes).flatten := by
    simp only [HandleQueryExecution, hopen, hping, hq, e]
  refine ⟨init, lastOut, e, hH, hl, h1, h0, ?_, ?_⟩
  · have hz : (init.map StatementOutput.separator).count 0x00 = 0 := by
      rw [List.count_eq_zero]
      intro hm
      obtain ⟨o, ho, hs⟩ := List.mem_map.1 hm
      rw [h1 o ho] at hs
      exact absurd hs (by decide)
    rw [List.map_append, List.count_append, hz, List.map_singleton, h0]
    rfl
  · rw [hH, List.map_append, List.flatten_append, List.map_singleton, List.flatten_singleton,
      StatementOutput.bytes, h0, ← List.append_assoc, ← List.append_assoc, List.getLast?_append]
    rfl

theorem separators_when_last_statement_not_blank_witness :
    (HandleQueryExecution exampleDriver
      (exampleParams ["INSERT INTO t VALUES (1)", " ", "SELECT 1"])).getLast? = some 0x00 := by
  obtain ⟨_, _, _, _, _, _, _, _, h⟩ :=
    separators_when_last_statement_not_blank exampleDriver
      (exampleParams ["INSERT INTO t VALUES (1)", " ", "SELECT 1"]) () ()
      ["INSERT INTO t VALUES (1)", " "] "SELECT 1" rfl rfl rfl (by decide)
  exact h

/-- C5 at the failing input: the read `SELECT bogus_column` fails in the database
with the message `Unknown column`; the statement writes no ResultSetHeader and
no Block, only its separator, and the next statement of the batch is then
processed. -/
theorem failed_select_writes_no_frames :
    isSelect "SELECT bogus_column" = true ∧
    exampleDriver.Query () "SELECT bogus_column" = ((), Except.error (ascii "Unknown column")) ∧
    executeStatement exampleDriver () "SELECT bogus_column" = ((), []) ∧
    HandleQueryExecution exampleDriver (exampleParams ["SELECT bogus_column"])
      = EchoHeader 0 ++ [0x00] ∧
    HandleQueryExecution exampleDriver (exampleParams ["SELECT bogus_column"])
      ≠ EchoHeader 0 ++ (EchoResultSetHeader 1000 0 0 0 0 ++ GetBlock (ascii "Unknown column")
          ++ [0x00]) ∧
    HandleQueryExecution exampleDriver (exampleParams ["SELECT bogus_column", "SELECT 1"])
      = EchoHeader 0 ++ [0x01] ++ (executeStatement exampleDriver () "SELECT 1").2 ++ [0x00] := by
  refine ⟨by decide, rfl, by decide, by decide, by decide, by decide⟩

/-- C6, as the claim states it, fails: a type name can contain `BIGINT` after an
earlier case of the `switch` has matched; `TINYINT BIGINT` is mapped to
`MYSQL_TYPE_TINY`. -/
theorem bigint_not_always_longlong :
    Contains "TINYINT BIGINT" "BIGINT" = true ∧
    GetMySQLTypeFromName "TINYINT BIGINT" = MYSQL_TYPE_TINY ∧
    GetMySQLTypeFromName "TINYINT BIGINT" ≠ MYSQL_TYPE_LONGLONG := by
  decide

/-- C6, amended. A type name that contains `BIGINT` also contains `INT` and is
never mapped to `MYSQL_TYPE_LONG` (3); it is mapped to `MYSQL_TYPE_LONGLONG` (8)
when it contains none of `TINYINT`, `SMALLINT`, `MEDIUMINT`, the three cases
that the `switch` tries before `BIGINT`. -/
theorem bigint_priority (typeName : String) (h : Contains typeName "BIGINT" = true) :
    Contains typeName "INT" = true ∧
    GetMySQLTypeFromName typeName ≠ MYSQL_TYPE_LONG ∧
    (Contains typeName "TINYINT" = false → Contains typeName "SMALLINT" = false →
      Contains typeName "MEDIUMINT" = false →
      GetMySQLTypeFromName typeName = MYSQL_TYPE_LONGLONG ∧
      GetMySQLTypeFromName typeName = 8) := by
  refine ⟨Contains_INT_of_BIGINT typeName h, ?_, ?_⟩
  · unfold GetMySQLTypeFromName
    by_cases h1 : Contains typeName "TINYINT" = true
    · rw [if_pos h1]; decide
    · rw [if_neg h1]
      by_cases h2 : Contains typeName "SMALLINT" = true
      · rw [if_pos h2]; decide
      · rw [if_neg h2]
        by_cases h3 : Contains typeName "MEDIUMINT" = true
        · rw [if_pos h3]; decide
        · rw [if_neg h3, if_pos h]; decide
  · intro h1 h2 h3
    have e : GetMySQLTypeFromName typeName = MYSQL_TYPE_LONGLONG := by
      unfold GetMySQLTypeFromName
      rw [if_neg (by rw [h1]; decide), if_neg (by rw [h2]; decide),
        if_neg (by rw [h3]; decide), if_pos h]
    exact ⟨e, e⟩

theorem bigint_priority_witness :
    Contains "UNSIGNED BIGINT" "BIGINT" = true ∧
    GetMySQLTypeFromName "UNSIGNED BIGINT" ≠ MYSQL_TYPE_LONG ∧
    GetMySQLTypeFromName "UNSIGNED BIGINT" = MYSQL_TYPE_LONGLONG :=
  ⟨by decide, (bigint_priority "UNSIGNED BIGINT" (by decide)).2.1,
    ((bigint_priority "UNSIGNED BIGINT" (by decide)).2.2 (by decide) (by decide)
      (by decide)).1⟩

/-- C7 at the failing input: the name `DATETIME` contains `DATE`, the case `DATE`
of the `switch` comes before the case `TIME` that holds the test for `DATETIME`,
and the name is mapped to `MYSQL_TYPE_DATE` (10), not to `MYSQL_TYPE_DATETIME`
(12); the name `TIMESTAMP` is mapped to `MYSQL_TYPE_DATETIME`. -/
theorem datetime_maps_to_date :
    (Contains "DATETIME" "DATETIME" = true ∧ Contains "DATETIME" "INT" = false ∧
      Contains "DATETIME" "FLOAT" = false ∧ Contains "DATETIME" "DOUBLE" = false ∧
      Contains "DATETIME" "DECIMAL" = false) ∧
    GetMySQLTypeFromName "DATETIME" = MYSQL_TYPE_DATE ∧
    GetMySQLTypeFromName "DATETIME" ≠ MYSQL_TYPE_DATETIME ∧
    GetMySQLTypeFromName "TIMESTAMP" = MYSQL_TYPE_DATETIME := by
  decide

/-- C8. Row data is unambiguous about nulls: for every row of nullable texts,
scanned as Go `string` or as `[]byte`, and more generally for every row of
scanned values, the row encoder writes the single byte `0xFF` for each null
and `GetBlock text` for each value that is not null, `text` being the text of
the value, in column order; no `GetBlock` output starts with `0xFF` and the
empty text is the single byte `0x00`; when every text is shorter than 2^32
bytes, reading the bytes value by value (`0xFF` is a null, anything else a
Block) gives back the row and leaves what follows it. -/
theorem row_values_round_trip (row : List (Option (List Byte))) (vals : List Value)
    (t : List Byte) :
    writeColumns [] (row.map Value.ofText)
      = (row.map (fun v => match v with
          | none => [0xFF]
          | some text => GetBlock text)).flatten ∧
    (rowsLoop row.length [some (row.map Value.ofText)] 0 []).2
      = writeColumns [] (row.map Value.ofText) ∧
    dataLoop row.length [some (row.map Value.ofText)] []
      = writeColumns [] (row.map Value.ofText) ∧
    (∀ text : List Byte, (GetBlock text).head? ≠ some 0xFF) ∧
    GetBlock [] = [0x00] ∧
    ((∀ text, some text ∈ row → text.length < 4294967296) →
      decodeValues row.length (writeColumns [] (row.map Value.ofText) ++ t) = some (row, t)) ∧
    writeColumns [] (row.map Value.ofBytes)
      = (row.map (fun v => match v with
          | none => [0xFF]
          | some text => GetBlock text)).flatten ∧
    ((∀ text, some text ∈ row → text.length < 4294967296) →
      decodeValues row.length (writeColumns [] (row.map Value.ofBytes) ++ t) = some (row, t)) ∧
    writeColumns [] vals
      = (vals.map (fun v => match Value.text v with
          | none => [0xFF]
          | some text => GetBlock text)).flatten ∧
    (rowsLoop vals.length [some vals] 0 []).2 = writeColumns [] vals ∧
    dataLoop vals.length [some vals] [] = writeColumns [] vals ∧
    ((∀ v ∈ vals, ∀ text, Value.text v = some text → text.length < 4294967296) →
      decodeValues vals.length (writeColumns [] vals ++ t)
        = some (vals.map Value.text, t)) := by
  have hw : (fun v : Option (List Byte) => match v with
      | none => [(0xFF : Byte)]
      | some text => GetBlock text) = wireText := by
    funext v; cases v <;> rfl
  have hv : (fun v : Value => match Value.text v with
      | none => [(0xFF : Byte)]
      | some text => GetBlock text) = wireText ∘ Value.text := by
    funext v; simp only [Function.comp]; cases Value.text v <;> rfl
  refine ⟨?_, ?_, ?_, GetBlock_head_ne_FF, rfl, ?_, ?_, ?_, ?_, ?_, ?_, ?_⟩
  · rw [hw, writeColumns_ofText]
  · simp [rowsLoop, Scan]
  · simp [dataLoop, Scan]
  · intro h
    rw [writeColumns_ofText, decodeValues_wire row t h]
  · rw [hw, writeColumns_ofBytes]
  · intro h
    rw [writeColumns_ofBytes, decodeValues_wire row t h]
  · rw [hv, ← List.map_map, writeColumns_text]
  · simp [rowsLoop, Scan]
  · simp [dataLoop, Scan]
  · exact decodeValues_writeColumns vals t

theorem row_values_round_trip_witness :
    writeColumns [] ([some [104, 105], none, some [], some [255]].map Value.ofText)
      = [2, 104, 105, 0xFF, 0, 1, 255] ∧
    decodeValues 4 ([2, 104, 105, 0xFF, 0, 1, 255] ++ [7])
      = some ([some [104, 105], none, some [], some [255]], [7]) ∧
    decodeValues 4
        (writeColumns [] ([some [104, 105], none, some [], some [255]].map Value.ofBytes) ++ [7])
      = some ([some [104, 105], none, some [], some [255]], [7]) ∧
    decodeValues 5
        (writeColumns [] [Value.bytes [104, 105], Value.nil, Value.int64 (-12), Value.bool true,
          Value.string []] ++ [7])
      = some ([some [104, 105], none, some [45, 49, 50], some [49], some []], [7]) :=
  ⟨by decide,
   (row_values_round_trip [some [104, 105], none, some [], some [255]] [] [7]).2.2.2.2.2.1
      (by intro text hm; simp at hm; rcases hm with rfl | rfl | rfl <;> decide),
   (row_values_round_trip [some [104, 105], none, some [], some [255]] [] [7]).2.2.2.2.2.2.2.1
      (by intro text hm; simp at hm; rcases hm with rfl | rfl | rfl <;> decide),
   (row_values_round_trip [] [Value.bytes [104, 105], Value.nil, Value.int64 (-12),
        Value.bool true, Value.string []] [7]).2.2.2.2.2.2.2.2.2.2.2
      (by
        intro v hm text ht
        simp only [List.mem_cons, List.mem_singleton, List.not_mem_nil, or_false] at hm
        rcases hm with rfl | rfl | rfl | rfl | rfl <;> cases ht <;> decide)⟩

/-- C9. For every write statement that executes successfully, the frames of the
statement are a ResultSetHeader with error code 0, field count 0 and row count
0, whose AFFECTED field is the affected-row count of the driver modulo 2^32
and whose INSERT_ID field is the last insert id of the driver modulo 2^32,
each 0 when the driver gives no value, followed by the Block of the text
`Rows affected: N` with `N` the decimal form of the AFFECTED field. -/
theorem write_statement_success {σ : Type} (d : Driver σ) (db db' : σ) (query : String)
    (result : Result) (hw : isSelect query = false)
    (he : d.Exec db query = (db', Except.ok result)) :
    ∃ affected insertId : Nat,
      (affected : Int) = (result.RowsAffected.getD 0) % 4294967296 ∧
      (insertId : Int) = (result.LastInsertId.getD 0) % 4294967296 ∧
      (result.RowsAffected = none → affected = 0) ∧
      (result.LastInsertId = none → insertId = 0) ∧
      executeStatement d db query =
        (db', EchoResultSetHeader 0 affected insertId 0 0 ++
          GetBlock (ascii "Rows affected: " ++ ascii (Nat.repr affected))) ∧
      (EchoResultSetHeader 0 affected insertId 0 0).length = 32 ∧
      readU32 (executeStatement d db query).2 0 = some 0 ∧
      readU32 (executeStatement d db query).2 4 = some affected ∧
      readU32 (executeStatement d db query).2 8 = some insertId ∧
      readU32 (executeStatement d db query).2 12 = some 0 ∧
      readU32 (executeStatement d db query).2 16 = some 0 ∧
      (executeStatement d db query).2.drop 32 =
        GetBlock (ascii "Rows affected: " ++ ascii (Nat.repr affected)) := by
  have hex := executeStatement_exec_ok d db db' query result hw he
  have hr := readU32_EchoResultSetHeader_append 0 (uint32 (result.RowsAffected.getD 0))
    (uint32 (result.LastInsertId.getD 0)) 0 0 (by decide) (uint32_lt _) (uint32_lt _)
    (by decide) (by decide)
    (GetBlock (ascii "Rows affected: " ++ formatUint (uint32 (result.RowsAffected.getD 0))))
  refine ⟨uint32 (result.RowsAffected.getD 0), uint32 (result.LastInsertId.getD 0),
    uint32_cast _, uint32_cast _, ?_, ?_, hex, ?_, ?_, ?_, ?_, ?_, ?_, ?_⟩
  · intro hn; rw [hn]; rfl
  · intro hn; rw [hn]; rfl
  · rw [EchoResultSetHeader_eq]; rfl
  · rw [hex]; exact hr.1
  · rw [hex]; exact hr.2.1
  · rw [hex]; exact hr.2.2.1
  · rw [hex]; exact hr.2.2.2.1
  · rw [hex]; exact hr.2.2.2.2.1
  · rw [hex]; exact hr.2.2.2.2.2

theorem write_statement_success_witness :
    ∃ affected insertId : Nat, affected = 1 ∧ insertId = 7 ∧
      executeStatement exampleDriver () "INSERT INTO t VALUES (1)" =
        ((), EchoResultSetHeader 0 affected insertId 0 0 ++
          GetBlock (ascii "Rows affected: " ++ ascii (Nat.repr affected))) := by
  obtain ⟨affected, insertId, ha, hi, _, _, hex, _⟩ :=
    write_statement_success exampleDriver () () "INSERT INTO t VALUES (1)"
      { RowsAffected := some 1, LastInsertId := some 7 } (by decide) rfl
  refine ⟨affected, insertId, ?_, ?_, hex⟩
  · simp only [Option.getD_some] at ha; omega
  · simp only [Option.getD_some] at hi; omega

/-- C10. For all 32-bit values `errno`, `affected`, `insertId`, `numFields` and
`numRows`, `EchoResultSetHeader` is exactly 32 bytes: the five values as
big-endian u32 at offsets 0, 4, 8, 12 and 16, then twelve zero bytes. -/
theorem EchoResultSetHeader_layout (errno affected insertId numFields numRows : Nat)
    (h1 : errno < 4294967296) (h2 : affected < 4294967296) (h3 : insertId < 4294967296)
    (h4 : numFields < 4294967296) (h5 : numRows < 4294967296) :
    (EchoResultSetHeader errno affected insertId numFields numRows).length = 32 ∧
    readU32 (EchoResultSetHeader errno affected insertId numFields numRows) 0 = some errno ∧
    readU32 (EchoResultSetHeader errno affected insertId numFields numRows) 4 = some affected ∧
    readU32 (EchoResultSetHeader errno affected insertId numFields numRows) 8 = some insertId ∧
    readU32 (EchoResultSetHeader errno affected insertId numFields numRows) 12
      = some numFields ∧
    readU32 (EchoResultSetHeader errno affected insertId numFields numRows) 16 = some numRows ∧
    (EchoResultSetHeader errno affected insertId numFields numRows).drop 20
      = List.replicate 12 0 := by
  rw [EchoResultSetHeader_eq]
  refine ⟨rfl, ?_, ?_, ?_, ?_, ?_, rfl⟩
  · show some (beU32 _ _ _ _) = some errno
    rw [beU32_bytes _ h1]
  · show some (beU32 _ _ _ _) = some affected
    rw [beU32_bytes _ h2]
  · show some (beU32 _ _ _ _) = some insertId
    rw [beU32_bytes _ h3]
  · show some (beU32 _ _ _ _) = some numFields
    rw [beU32_bytes _ h4]
  · show some (beU32 _ _ _ _) = some numRows
    rw [beU32_bytes _ h5]

theorem EchoResultSetHeader_layout_witness :
    (EchoResultSetHeader 1000 70000 4294967295 3 256).length = 32 ∧
    readU32 (EchoResultSetHeader 1000 70000 4294967295 3 256) 4 = some 70000 ∧
    readU32 (EchoResultSetHeader 1000 70000 4294967295 3 256) 8 = some 4294967295 :=
  ⟨(EchoResultSetHeader_layout 1000 70000 4294967295 3 256 (by decide) (by decide) (by decide)
      (by decide) (by decide)).1,
   (EchoResultSetHeader_layout 1000 70000 4294967295 3 256 (by decide) (by decide) (by decide)
      (by decide) (by decide)).2.2.1,
   (EchoResultSetHeader_layout 1000 70000 4294967295 3 256 (by decide) (by decide) (by decide)
      (by decide) (by decide)).2.2.2.1⟩

/-- C11. Connect failure aborts the whole request: whenever opening the
connection or the liveness check fails with the message `m`, both
`HandleQueryExecution`, for every batch of statements, and
`HandleConnectionTest` return exactly `EchoHeader 2000 ++ GetBlock m`, a header
of 16 bytes with the error code 2000 followed by one Block with the message;
nothing else is written, and the response is the same whatever the database
would answer to a statement. -/
theorem connect_failure_aborts {σ : Type} (d : Driver σ) (params : Params) (m : List Byte)
    (hfail : d.Open (buildDSN params) = Except.error m ∨
      ∃ db0, d.Open (buildDSN params) = Except.ok db0 ∧ d.Ping db0 = Except.error m) :
    HandleQueryExecution d params = EchoHeader 2000 ++ GetBlock m ∧
    HandleConnectionTest d params = EchoHeader 2000 ++ GetBlock m ∧
    (EchoHeader 2000).length = 16 ∧
    readU32 (HandleQueryExecution d params) 6 = some 2000 ∧
    (HandleQueryExecution d params).length = 16 + (GetBlock m).length ∧
    (HandleQueryExecution d params).drop 16 = GetBlock m ∧
    (m.length < 4294967296 →
      decodeBlock ((HandleQueryExecution d params).drop 16) = some (m, [])) ∧
    (∀ (Query : σ → String → σ × Except (List Byte) Rows)
       (Exec : σ → String → σ × Except (List Byte) Result),
      HandleQueryExecution { d with Query := Query, Exec := Exec } params
        = EchoHeader 2000 ++ GetBlock m) := by
  have hQ : ∀ d' : Driver σ, d'.Open = d.Open → d'.Ping = d.Ping →
      HandleQueryExecution d' params = EchoHeader 2000 ++ GetBlock m := by
    intro d' ho hp
    rcases hfail with h | ⟨db0, h, hping⟩
    · exact HandleQueryExecution_open_error d' params m (by rw [ho]; exact h)
    · exact HandleQueryExecution_ping_error d' params db0 m (by rw [ho]; exact h)
        (by rw [hp]; exact hping)
  have hC : HandleConnectionTest d params = EchoHeader 2000 ++ GetBlock m := by
    rcases hfail with h | ⟨db0, h, hping⟩
    · exact HandleConnectionTest_open_error d params m h
    · exact HandleConnectionTest_ping_error d params db0 m h hping
  have hd : (EchoHeader 2000 ++ GetBlock m).drop 16 = GetBlock m := by
    rw [EchoHeader_eq]; rfl
  refine ⟨hQ d rfl rfl, hC, ?_, ?_, ?_, ?_, ?_, ?_⟩
  · rw [EchoHeader_eq]; rfl
  · rw [hQ d rfl rfl, EchoHeader_eq]
    show some (beU32 _ _ _ _) = some 2000
    rw [beU32_bytes 2000 (by decide)]
  · rw [hQ d rfl rfl, List.length_append, EchoHeader_eq]; rfl
  · rw [hQ d rfl rfl, hd]
  · intro hm
    rw [hQ d rfl rfl, hd]
    have h := decodeBlock_GetBlock m [] hm
    rwa [List.append_nil] at h
  · intro Query Exec
    exact hQ _ rfl rfl

theorem connect_failure_aborts_witness :
    HandleQueryExecution refusingDriver (exampleParams ["SELECT 1", "DELETE FROM t"])
      = EchoHeader 2000 ++ GetBlock (ascii "connection refused") ∧
    HandleConnectionTest silentDriver (exampleParams [])
      = EchoHeader 2000 ++ GetBlock (ascii "i/o timeout") :=
  ⟨(connect_failure_aborts refusingDriver (exampleParams ["SELECT 1", "DELETE FROM t"])
      (ascii "connection refused") (Or.inl rfl)).1,
   (connect_failure_aborts silentDriver (exampleParams [])
      (ascii "i/o timeout") (Or.inr ⟨(), rfl, rfl⟩)).2.1⟩

/-- C12 at the failing input: a read gives two rows of one column and `Scan`
fails on the second row.  The row counter is incremented before `Scan` is
tried, so the ResultSetHeader carries NUM_ROWS = 2 and NUM_FIELDS = 1, while
RowData holds the one value of the first row only: the failed row is dropped
from the data and still counted. -/
theorem failed_scan_is_counted :
    isSelect "SELECT n FROM t" = true ∧
    readU32 (executeStatement scanFailDriver () "SELECT n FROM t").2 0 = some 0 ∧
    readU32 (executeStatement scanFailDriver () "SELECT n FROM t").2 12 = some 1 ∧
    readU32 (executeStatement scanFailDriver () "SELECT n FROM t").2 16 = some 2 ∧
    (executeStatement scanFailDriver () "SELECT n FROM t").2.drop 32
      = EchoFieldsHeader [ascii "n"] [] ++ GetBlock (ascii "1") ∧
    (rowsLoop 1 [some [Value.int64 1], none] 0 []) = (2, GetBlock (ascii "1")) ∧
    decodeValues 1 (GetBlock (ascii "1")) = some ([some (ascii "1")], []) ∧
    decodeValues (2 * 1) (GetBlock (ascii "1")) = none := by
  decide

end NTunnel
